import Mathlib

/-
  Verification of the wasmrun development server against its specification.

  The Rust sources embedded here are `src/server/handler.rs` (request routing
  for the two handler variants) and `src/server.rs` (single-instance process
  guard, port probe, and server start-up).  Filesystem and OS effects are
  made explicit: a `WebFS` value lists the regular files and directories the
  server can see, and a `ServerEnv` value records the outcomes of the OS
  probes (PID-file reads, `ps`, `kill`, port probe, listener bind) that
  `server.rs` performs.
-/

namespace Wasmrun

/-! ### Character-list models of the Rust string operations

`String.endsWith`, `String.splitOn` and friends do not reduce inside the
kernel, so the Rust `str` operations used by the server are modelled over
`String.data` character lists. -/

/-- Model of Rust `str::ends_with`. -/
def strEndsWith (s suf : String) : Bool :=
  List.isSuffixOf suf.data s.data

/-- Model of Rust `str::starts_with`. -/
def strStartsWith (s pre : String) : Bool :=
  List.isPrefixOf pre.data s.data

/-- Split a character list at every occurrence of `sep` (Rust `str::split`). -/
def splitChars (sep : Char) : List Char → List (List Char)
  | [] => [[]]
  | c :: rest =>
    let r := splitChars sep rest
    if c = sep then [] :: r
    else
      match r with
      | [] => [[c]]
      | h :: t => (c :: h) :: t

/-- Model of Rust `str::split(sep)` collected into a list. -/
def splitOnChar (sep : Char) (s : String) : List String :=
  (splitChars sep s.data).map String.mk

/-- ASCII whitespace test used by the `trim` model. -/
def isWsChar (c : Char) : Bool :=
  c = ' ' || c = '\t' || c = '\n' || c = '\r'

/-- Model of Rust `str::trim` (ASCII whitespace). -/
def trimStr (s : String) : String :=
  String.mk (((s.data.dropWhile isWsChar).reverse.dropWhile isWsChar).reverse)

/-- Model of Rust `str::parse::<u32>`: optional leading `+`, at least one
decimal digit, value below `2^32`. -/
def parseU32 (s : String) : Option Nat :=
  let ds := if s.data.head? = some '+' then s.data.tail else s.data
  if ds ≠ [] && ds.all Char.isDigit then
    let v := ds.foldl (fun acc c => acc * 10 + (c.toNat - 48)) 0
    if v < 4294967296 then some v else none
  else none

/-! ### Path and filesystem model

A filesystem path is a list of name segments.  `normalize` models how the
operating system resolves `.` and `..` components when a joined path is
handed to `exists` / `is_file` / `read`. -/

/-- Resolve `.`, `..` and empty segments the way the OS does on lookup. -/
def normalize (p : List String) : List String :=
  p.foldl
    (fun acc seg =>
      if seg = "" || seg = "." then acc
      else if seg = ".." then acc.dropLast
      else acc ++ [seg])
    []

/-- Path segments of a request URL: `url.trim_start_matches('/')` followed by
`Path::join`, which treats consecutive separators as one. -/
def urlSegs (u : String) : List String :=
  (splitOnChar '/' u).filter (fun s => s ≠ "")

/-- Model of `url.split('/').last().unwrap_or("")`. -/
def urlLastSeg (u : String) : String :=
  ((splitOnChar '/' u).getLast?).getD ""

/-- The filesystem visible to the server: `entries` lists directory entries as
(normalized absolute path, is-regular-file) pairs, in the order `read_dir`
yields them; `unreadable` lists directories on which `read_dir` fails. -/
structure WebFS where
  entries : List (List String × Bool)
  unreadable : List (List String)

/-- Whether the OS resolves `p` to a regular file (models
`Path::exists` combined with `Path::is_file`, and success of `fs::read`). -/
def isFile (fs : WebFS) (p : List String) : Bool :=
  fs.entries.any (fun e => e.1 = normalize p && e.2)

/-- The name of `p` as a direct child of directory `d`, when it is one. -/
def childOf (d p : List String) : Option String :=
  if p.dropLast = d then p.getLast? else none

/-- Model of `fs::read_dir(d)`: names of the entries directly under `d`
paired with their regular-file flag, in `entries` order. -/
def readDir (fs : WebFS) (d : List String) : List (String × Bool) :=
  fs.entries.filterMap (fun e => (childOf d e.1).map (fun n => (n, e.2)))

/-! ### HTTP responses -/

/-- The payload of a response.  The HTML templates live in the `template`
module, which is outside the embedded sources, so the two generated entry
pages are represented by dedicated constructors carrying their inputs. -/
inductive Content where
  | text (s : String)
  | fileData (p : List String)
  | htmlPlain (wasmFilename : String)
  | htmlBindgen (jsFilename wasmFilename : String)
deriving DecidableEq

/-- An HTTP response as assembled by the handlers: status code, payload,
optional `Content-Type` header, and the two extra headers the web-app
reload endpoint sets. -/
structure HResp where
  status : Nat
  body : Content
  contentType : Option String
  cacheControl : Bool
  xReloadNeeded : Bool
deriving DecidableEq

/-- Build a plain response the way `Response::from_string(..)` plus a
content-type header does (status 200, no extra headers). -/
def plainResp (body : Content) (ct : Option String) : HResp :=
  { status := 200, body := body, contentType := ct,
    cacheControl := false, xReloadNeeded := false }

/-- Modelled from the spec: `determine_content_type` lives in the missing
`server/utils` module; the spec says the MIME type comes from a static
extension table with `application/octet-stream` for unmapped extensions. -/
def mimeFor (ext : String) : String :=
  if ext = "wasm" then "application/wasm"
  else if ext = "js" then "application/javascript"
  else if ext = "html" then "text/html"
  else if ext = "css" then "text/css"
  else if ext = "json" then "application/json"
  else if ext = "png" then "image/png"
  else "application/octet-stream"

/-- Extension of the final path segment (empty when there is no dot). -/
def extOf (p : List String) : String :=
  match p.getLast? with
  | none => ""
  | some name =>
    match (splitOnChar '.' name).reverse with
    | [] => ""
    | [_] => ""
    | e :: _ => e

/-- Modelled from the spec: MIME type of a served output file, derived from
its extension (see `mimeFor`). -/
def determine_content_type (p : List String) : String :=
  mimeFor (extOf p)

/-- Embedding of `serve_file` (handler.rs): read the file and answer 200 with
the given content type, or 500 when the read fails.  The OS error text in
the 500 body is abstracted to a fixed string. -/
def serve_file (fs : WebFS) (p : List String) (ct : String) : HResp :=
  if isFile fs p then
    plainResp (.fileData (normalize p)) (some ct)
  else
    { status := 500, body := .text "Error", contentType := some "text/plain",
      cacheControl := false, xReloadNeeded := false }

/-- Content type chosen by `serve_asset` from the URL suffix. -/
def assetContentType (url : String) : String :=
  if strEndsWith url ".png" then "image/png"
  else if strEndsWith url ".jpg" || strEndsWith url ".jpeg" then "image/jpeg"
  else if strEndsWith url ".svg" then "image/svg+xml"
  else if strEndsWith url ".gif" then "image/gif"
  else if strEndsWith url ".css" then "text/css"
  else if strEndsWith url ".js" then "application/javascript"
  else "application/octet-stream"

/-- Embedding of `serve_asset` (handler.rs): resolve under the fixed
`./assets` root and answer 200, or 404 when the read fails. -/
def serve_asset (fs : WebFS) (url : String) : HResp :=
  let assetFilename :=
    if strStartsWith url "/assets/" then String.mk (url.data.drop 8) else ""
  let assetPath := "assets" :: urlSegs assetFilename
  if isFile fs assetPath then
    plainResp (.fileData (normalize assetPath)) (some (assetContentType url))
  else
    { status := 404, body := .text "Asset not found",
      contentType := some "text/plain", cacheControl := false,
      xReloadNeeded := false }

/-- The fallback scan of handler.rs lines 81-98: first directory entry whose
name ends in `_bg.wasm` and which is a regular file, served as wasm. -/
def bgScan (fs : WebFS) (base : List String)
    (dirEntries : Option (List (String × Bool))) : Option HResp :=
  match dirEntries with
  | none => none
  | some es =>
    match es.find? (fun e => strEndsWith e.1 "_bg.wasm" && e.2) with
    | some e => some (serve_file fs (base ++ [e.1]) "application/wasm")
    | none => none

/-- Content type table of the common-pattern fallback loop (handler.rs
lines 111-117). -/
def extContentType (ext : String) : String :=
  if ext = "js" then "application/javascript"
  else if ext = "css" then "text/css"
  else if ext = "json" then "application/json"
  else if ext = "wasm" then "application/wasm"
  else "application/octet-stream"

/-- The common-pattern fallback loop of handler.rs lines 100-124: for each
extension whose dot-suffix matches the URL, serve the first directory entry
named exactly like the URL's final segment (no regular-file check). -/
def extSearch (fs : WebFS) (base : List String) (url : String)
    (dirEntries : Option (List (String × Bool))) :
    List String → Option HResp
  | [] => none
  | ext :: rest =>
    if strEndsWith url ("." ++ ext) then
      match dirEntries with
      | some es =>
        match es.find? (fun e => e.1 = urlLastSeg url) with
        | some e => some (serve_file fs (base ++ [e.1]) (extContentType ext))
        | none => extSearch fs base url dirEntries rest
      | none => extSearch fs base url dirEntries rest
    else extSearch fs base url dirEntries rest

/-- Entry page body: `generate_html_wasm_bindgen` when a glue script is
configured, `generate_html` otherwise (the templates live outside the
embedded sources and are kept abstract). -/
def entryBody (js : Option String) (wasmFilename : String) : Content :=
  match js with
  | some j => .htmlBindgen j wasmFilename
  | none => .htmlPlain wasmFilename

/-- Embedding of `handle_request` (handler.rs lines 11-135).  Returns the
response written to the client — `none` when the function falls through
every branch without responding — and the updated `clients_to_reload`
list.  `wasmPath` is the path of the primary artifact; the output directory
is its parent, as in the source. -/
def handle_request (js : Option String) (wasmFilename : String)
    (wasmPath : List String) (watchMode : Bool) (clients : List String)
    (fs : WebFS) (url clientAddr : String) :
    Option HResp × List String :=
  if url = "/" then
    let clients' :=
      if watchMode ∧ clientAddr ∉ clients then clients ++ [clientAddr]
      else clients
    (some (plainResp (entryBody js wasmFilename) (some "text/html")), clients')
  else if url = "/" ++ wasmFilename then
    (some (serve_file fs wasmPath "application/wasm"), clients)
  else
    match js with
    | some j =>
      if url = "/" ++ j then
        (some (serve_file fs (wasmPath.dropLast ++ [j])
          "application/javascript"), clients)
      else (none, clients)
    | none =>
      if url = "/reload" then
        if watchMode then
          (some (plainResp (.text "no-reload") (some "text/plain")), clients)
        else
          (some (plainResp (.text "not-watching") (some "text/plain")),
            clients)
      else if strStartsWith url "/assets/" then
        (some (serve_asset fs url), clients)
      else
        let base := wasmPath.dropLast
        let requested := base ++ urlSegs url
        if isFile fs requested then
          (some (serve_file fs requested (determine_content_type requested)),
            clients)
        else
          let dirEntries :=
            if base ∈ fs.unreadable then none else some (readDir fs base)
          let bg :=
            if strEndsWith url "_bg.wasm" then bgScan fs base dirEntries
            else none
          match bg with
          | some r => (some r, clients)
          | none =>
            match extSearch fs base url dirEntries
                ["js", "css", "json", "wasm"] with
            | some r => (some r, clients)
            | none =>
              (some { status := 404, body := .text "404 Not Found",
                      contentType := some "text/plain", cacheControl := false,
                      xReloadNeeded := false }, clients)

/-- Embedding of `handle_webapp_request` (handler.rs lines 138-210).
Returns the response, the updated client list, and the reload flag after
the request (the atomic flag is threaded as explicit state here; its
concurrent behaviour is modelled separately below). -/
def handle_webapp_request (html : String) (outputDir : List String)
    (clients : List String) (reloadFlag : Bool) (fs : WebFS)
    (url clientAddr : String) :
    HResp × List String × Bool :=
  if url = "/" then
    let clients' :=
      if clientAddr ∉ clients then clients ++ [clientAddr] else clients
    (plainResp (.text html) (some "text/html"), clients', reloadFlag)
  else if url = "/reload-check" then
    let resp : HResp :=
      if reloadFlag then
        { status := 200, body := .text "", contentType := none,
          cacheControl := true, xReloadNeeded := true }
      else
        { status := 200, body := .text "", contentType := none,
          cacheControl := true, xReloadNeeded := false }
    let flag' := if reloadFlag then false else reloadFlag
    (resp, clients, flag')
  else if strStartsWith url "/assets/" then
    (serve_asset fs url, clients, reloadFlag)
  else
    let filePath := outputDir ++ urlSegs url
    if isFile fs filePath then
      (serve_file fs filePath (determine_content_type filePath), clients,
        reloadFlag)
    else
      (plainResp (.text html) (some "text/html"), clients, reloadFlag)

/-! ### server.rs: process guard, port probe and start-up -/

/-- Outcome of a fallible server.rs step (`Result<(), String>` in the
source). -/
inductive RunResult where
  | success
  | failure (msg : String)
deriving DecidableEq

/-- The OS-level outcomes consulted by server.rs, made explicit:
`pidFileExists` — whether the PID record file is present;
`readResult` — what `fs::read_to_string(PID_FILE)` yields (`none` = error);
`psResult` — outcome of spawning `ps -p <pid>` (`none` = spawn failure,
otherwise exit-status success and stdout line count);
`killResult` — outcome of spawning `kill -9 <pid>` (`none` = spawn failure,
otherwise exit-status success);
`removeOk` — whether `fs::remove_file(PID_FILE)` succeeds;
`portAvailable` — whether the probe bind of the port succeeds;
`artifactExists` — whether the artifact path exists;
`pidWriteOk` — whether writing the new PID record succeeds;
`bindOk` — whether `Server::http` manages to bind the listener. -/
structure ServerEnv where
  pidFileExists : Bool
  readResult : Option String
  psResult : Option (Bool × Nat)
  killResult : Option Bool
  removeOk : Bool
  portAvailable : Bool
  artifactExists : Bool
  pidWriteOk : Bool
  bindOk : Bool

/-- Embedding of `is_server_running` (server.rs lines 12-31): the recorded
process counts as running only when the PID file exists, reads, parses as a
`u32`, and `ps -p` both runs, exits successfully and prints more than the
header line. -/
def is_server_running (env : ServerEnv) : Bool :=
  if !env.pidFileExists then false
  else
    match env.readResult with
    | none => false
    | some s =>
      match parseU32 (trimStr s) with
      | none => false
      | some _ =>
        match env.psResult with
        | none => false
        | some res => res.1 && res.2 > 1

/-- Embedding of `stop_existing_server` (server.rs lines 34-72).  The second
component records whether the PID record file was removed. -/
def stop_existing_server (env : ServerEnv) : RunResult × Bool :=
  if !(is_server_running env) then
    if env.pidFileExists then
      if env.removeOk then (.success, true)
      else (.failure "No server running, but failed to remove stale PID file",
        false)
    else (.success, false)
  else
    match env.readResult with
    | none => (.failure "Failed to read PID file", false)
    | some s =>
      match parseU32 (trimStr s) with
      | none => (.failure "Failed to parse PID", false)
      | some _ =>
        match env.killResult with
        | none => (.failure "Failed to kill server process", false)
        | some killOk =>
          if killOk then
            if env.removeOk then (.success, true)
            else (.failure "Failed to remove PID file", false)
          else (.failure "Failed to stop Chakra server", false)

/-- Model of `Path::new(path).file_name()`: the final non-empty,
non-`.` segment, unless it is `..`. -/
def fileName (path : String) : Option String :=
  match ((splitOnChar '/' path).filter
      (fun s => s ≠ "" && s ≠ ".")).getLast? with
  | some s => if s = ".." then none else some s
  | none => none

/-- Externally visible steps of `run_server`, in the order they happen. -/
inductive Event where
  | guardStopOk
  | guardStopWarned
  | portOk
  | artifactOk
  | filenameOk
  | browserOpened
  | pidPublished
  | listenerBound
deriving DecidableEq

/-- Result and event trace of a `run_server` invocation. -/
structure RunOutcome where
  result : RunResult
  trace : List Event
deriving DecidableEq

/-- The guard portion of `run_server` (lines 82-87): when a prior instance is
recorded as running, its termination is attempted, and a failure is only
logged as a warning. -/
def guardTrace (env : ServerEnv) : List Event :=
  if is_server_running env then
    match (stop_existing_server env).1 with
    | .success => [.guardStopOk]
    | .failure _ => [.guardStopWarned]
  else []

/-- The steps of `run_server` after the guard (server.rs lines 89-176):
port probe, artifact existence check, filename extraction, best-effort
browser launch, PID record write, listener bind.  Each fallible step aborts
with its error message; the browser launch never does. -/
def run_server_core (path : String) (env : ServerEnv) : RunOutcome :=
  if !env.portAvailable then
    { result := .failure "Port is already in use", trace := [] }
  else if !env.artifactExists then
    { result := .failure "WASM file not found", trace := [.portOk] }
  else
    match fileName path with
    | none =>
      { result := .failure "Invalid path", trace := [.portOk, .artifactOk] }
    | some _ =>
      if !env.pidWriteOk then
        { result := .failure "Failed to write PID",
          trace := [.portOk, .artifactOk, .filenameOk, .browserOpened] }
      else if !env.bindOk then
        { result := .failure "Failed to start server",
          trace := [.portOk, .artifactOk, .filenameOk, .browserOpened,
            .pidPublished] }
      else
        { result := .success,
          trace := [.portOk, .artifactOk, .filenameOk, .browserOpened,
            .pidPublished, .listenerBound] }

/-- Embedding of `run_server` (server.rs lines 80-176): the guard first —
whose failure is only warned about — then the remaining steps. -/
def run_server (path : String) (env : ServerEnv) : RunOutcome :=
  let core := run_server_core path env
  { result := core.result, trace := guardTrace env ++ core.trace }

/-! ### Interleaving model of the reload-flag consume

The `/reload-check` handler consumes the flag with a separate
`load(SeqCst)` followed by `store(false, SeqCst)` (handler.rs lines
176-182).  The external rebuild notifier (out of scope in the source,
modelled from the spec) stores `true`.  A schedule places that store
before the load, between load and store, or after the store. -/

/-- The handler's read of the flag (`reload_flag.load(Ordering::SeqCst)`). -/
def reloadLoad (flag : Bool) : Bool := flag

/-- The handler's conditional reset
(`reload_flag.store(false, Ordering::SeqCst)` inside `if` on the loaded
value). -/
def reloadStore (observed flag : Bool) : Bool :=
  if observed then false else flag

/-- Modelled from the spec: the external rebuild notifier sets the pending
flag to `true`. -/
def notifierSet (_flag : Bool) : Bool := true

/-- Where the notifier's store falls relative to the handler's two steps. -/
inductive Sched where
  | before
  | middle
  | after
deriving DecidableEq

/-- Run the handler's load/store consume interleaved with one notifier store,
from initial flag value `init`.  Returns (final flag, value the handler
loaded). -/
def loadStoreRun : Sched → Bool → Bool × Bool
  | .before, init =>
    let f := notifierSet init
    let obs := reloadLoad f
    (reloadStore obs f, obs)
  | .middle, init =>
    let obs := reloadLoad init
    let f := notifierSet init
    (reloadStore obs f, obs)
  | .after, init =>
    let obs := reloadLoad init
    let f := reloadStore obs init
    (notifierSet f, obs)

/-- The notifier's set is delivered when either the flag is still `true`
afterwards (a later poll will see it) or the handler's load happened after
the set and read `true` (this poll reports it). -/
def signalDelivered (s : Sched) (init : Bool) : Prop :=
  (loadStoreRun s init).1 = true ∨
    (s = .before ∧ (loadStoreRun s init).2 = true)

instance (s : Sched) (init : Bool) : Decidable (signalDelivered s init) := by
  unfold signalDelivered
  infer_instance

/-- An atomic compare-and-reset consume (`compare_exchange(true, false)`),
as the specification prescribes: one indivisible step returning the new
flag and the observed value. -/
def casConsume (flag : Bool) : Bool × Bool :=
  if flag then (false, true) else (flag, false)

/-- Interleavings of the atomic consume with one notifier store: the store
is either before or after the single atomic step. -/
def casRun (notifierFirst : Bool) (init : Bool) : Bool × Bool :=
  if notifierFirst then casConsume (notifierSet init)
  else
    let r := casConsume init
    (notifierSet r.1, r.2)

/-- Delivery for the compare-and-reset consume. -/
def casDelivered (notifierFirst : Bool) (init : Bool) : Prop :=
  (casRun notifierFirst init).1 = true ∨
    (notifierFirst = true ∧ (casRun notifierFirst init).2 = true)

instance (nf : Bool) (init : Bool) : Decidable (casDelivered nf init) := by
  unfold casDelivered
  infer_instance

/-- Repeated requests to `/` in watch mode from one client, threading the
`clients_to_reload` list through `handle_request`. -/
def iterEntry (js : Option String) (wasmFilename : String)
    (wasmPath : List String) (fs : WebFS) (addr : String) :
    Nat → List String → List String
  | 0, cs => cs
  | n + 1, cs =>
    iterEntry js wasmFilename wasmPath fs addr n
      (handle_request js wasmFilename wasmPath true cs fs "/" addr).2

/-! ### General lemmas about the embedding -/

theorem find_eq_filter_head {α : Type} (p : α → Bool) (l : List α) :
    l.find? p = (l.filter p).head? := by
  induction l with
  | nil => rfl
  | cons a t ih =>
    cases h : p a
    · rw [List.find?_cons_of_neg _ (by simp [h]),
        List.filter_cons_of_neg (by simp [h]), ih]
    · rw [List.find?_cons_of_pos _ h, List.filter_cons_of_pos h]
      rfl

theorem dropLast_append_getLast_of {α : Type} (l : List α) (a : α)
    (h : l.getLast? = some a) : l.dropLast ++ [a] = l := by
  induction l with
  | nil => simp at h
  | cons b t ih =>
    cases t with
    | nil =>
      simp [List.getLast?] at h
      simp [h]
    | cons c t2 =>
      rw [List.getLast?_cons_cons] at h
      have hd : (b :: c :: t2).dropLast = b :: (c :: t2).dropLast := by
        simp [List.dropLast]
      rw [hd, List.cons_append, ih h]

theorem mem_entries_of_mem_readDir {fs : WebFS} {d : List String}
    {n : String} {b : Bool} (h : (n, b) ∈ readDir fs d) :
    (d ++ [n], b) ∈ fs.entries := by
  unfold readDir at h
  rw [List.mem_filterMap] at h
  obtain ⟨e, hmem, hmap⟩ := h
  unfold childOf at hmap
  split at hmap
  case isTrue hd =>
    rw [Option.map_eq_some'] at hmap
    obtain ⟨m, hm, heq⟩ := hmap
    have h1 : m = n := congrArg Prod.fst heq
    have h2 : e.2 = b := congrArg Prod.snd heq
    have h3 : e.1 = d ++ [n] := by
      rw [← hd, ← h1]
      exact (dropLast_append_getLast_of e.1 m hm).symm
    rw [← h3, ← h2]
    simpa using hmem
  case isFalse => simp at hmap

theorem isFile_of_mem_entries {fs : WebFS} {p : List String}
    (hwf : ∀ e ∈ fs.entries, normalize e.1 = e.1)
    (h : (p, true) ∈ fs.entries) : isFile fs p = true := by
  unfold isFile
  rw [List.any_eq_true]
  refine ⟨(p, true), h, ?_⟩
  simp [hwf (p, true) h]

theorem extSearch_eq_none {fs : WebFS} {base : List String} {url : String}
    {es : List (String × Bool)}
    (h : ∀ e ∈ es, e.1 ≠ urlLastSeg url) :
    ∀ exts : List String, extSearch fs base url (some es) exts = none := by
  intro exts
  induction exts with
  | nil => rfl
  | cons ext rest ih =>
    have hfind : es.find? (fun e => e.1 = urlLastSeg url) = none :=
      List.find?_eq_none.mpr (fun x hx => by simp [h x hx])
    unfold extSearch
    cases hs : strEndsWith url ("." ++ ext) <;> simp [hs, hfind, ih]

theorem guardTrace_sub (env : ServerEnv) :
    ∀ e ∈ guardTrace env,
      e = Event.guardStopOk ∨ e = Event.guardStopWarned := by
  intro e he
  unfold guardTrace at he
  split at he
  · split at he
    · simp at he
      simp [he]
    · simp at he
      simp [he]
  · simp at he

theorem entry_step_of_mem (js : Option String) (wasm : String)
    (wasmPath : List String) (fs : WebFS) (addr : String)
    (cs : List String) (h : addr ∈ cs) :
    (handle_request js wasm wasmPath true cs fs "/" addr).2 = cs := by
  simp [handle_request, h]

theorem entry_step_of_not_mem (js : Option String) (wasm : String)
    (wasmPath : List String) (fs : WebFS) (addr : String)
    (cs : List String) (h : addr ∉ cs) :
    (handle_request js wasm wasmPath true cs fs "/" addr).2 = cs ++ [addr] := by
  simp [handle_request, h]

theorem iterEntry_count_of_mem (js : Option String) (wasm : String)
    (wasmPath : List String) (fs : WebFS) (addr : String) :
    ∀ (n : Nat) (cs : List String), addr ∈ cs → cs.count addr = 1 →
      (iterEntry js wasm wasmPath fs addr n cs).count addr = 1 := by
  intro n
  induction n with
  | zero =>
    intro cs _ hc
    simpa [iterEntry] using hc
  | succ m ih =>
    intro cs h hc
    simp only [iterEntry]
    rw [entry_step_of_mem js wasm wasmPath fs addr cs h]
    exact ih cs h hc

/-! ### Claim theorems -/

/-- C1: the spec requires direct resolution under the output directory to
reject request paths containing `..` segments and never to serve a file
outside the output root.  `handle_request` performs no such check: with
output root `srv/out` (the artifact's parent) and a regular file
`srv/secret.txt` outside it, the request `/../secret.txt` is path-joined,
resolves through the `..` segment, and is served with a 200 — and the served
path is not under the output root. -/
theorem C1_traversal_escapes_root :
    (handle_request none "app.wasm" ["srv", "out", "app.wasm"] false []
        { entries := [(["srv", "secret.txt"], true)], unreadable := [] }
        "/../secret.txt" "127.0.0.1:7000").1 =
      some (plainResp (.fileData ["srv", "secret.txt"])
        (some "application/octet-stream")) ∧
    ¬ List.IsPrefix ["srv", "out"] ["srv", "secret.txt"] :=
  ⟨by decide, by decide⟩

/-- C3 (counterexample): the claim says every request to `/reload` or
`/reload-check` with watch mode disabled gets the body `not-watching`,
whatever the glue-script configuration.  In fact `handle_request` does not
treat `/reload-check` as a reload endpoint at all — it falls through to
direct resolution and is answered 404 — and with a glue script configured
even `/reload` falls into the glue branch and receives no response. -/
theorem C3_reload_endpoints_counterexample :
    (handle_request none "app.wasm" ["srv", "out", "app.wasm"] false []
        { entries := [], unreadable := [] } "/reload-check" "c").1 =
      some { status := 404, body := .text "404 Not Found",
             contentType := some "text/plain", cacheControl := false,
             xReloadNeeded := false } ∧
    (handle_request (some "app.js") "app.wasm" ["srv", "out", "app.wasm"]
        false [] { entries := [], unreadable := [] } "/reload" "c").1 =
      none :=
  ⟨by decide, by decide⟩

/-- C3 (amended): for requests to `/reload` while watch mode is disabled,
with no glue script configured and the primary-artifact route distinct from
`/reload`, the response body is exactly `not-watching` (there is no reload
flag in this handler, so the answer cannot depend on one); `/reload-check`
is not a reload endpoint of `handle_request`, and with a glue script
configured `/reload` receives no response. -/
theorem C3_amended_reload_not_watching (wasm : String)
    (wasmPath : List String) (clients : List String) (fs : WebFS)
    (addr : String) (h : "/reload" ≠ "/" ++ wasm) :
    (handle_request none wasm wasmPath false clients fs "/reload" addr).1 =
      some (plainResp (.text "not-watching") (some "text/plain")) := by
  unfold handle_request
  rw [if_neg (by decide : ¬ (("/reload" : String) = "/")), if_neg h]
  simp

/-- Witness for `C3_amended_reload_not_watching` at a concrete
configuration. -/
theorem C3_amended_reload_not_watching_witness :
    (("/reload" : String) ≠ "/" ++ "app.wasm") ∧
    (handle_request none "app.wasm" ["srv", "out", "app.wasm"] false []
        { entries := [], unreadable := [] } "/reload" "c").1 =
      some (plainResp (.text "not-watching") (some "text/plain")) :=
  ⟨by decide,
    C3_amended_reload_not_watching "app.wasm" ["srv", "out", "app.wasm"] []
      { entries := [], unreadable := [] } "c" (by decide)⟩

/-- C4: when the reload flag is true, the first `/reload-check` poll
observes the reload-needed signal (the `X-Reload-Needed` header) and resets
the flag to false; an immediately following poll — fed the state the first
one left, with no intervening rebuild — observes no signal, and the flag
stays false. -/
theorem C4_reload_flag_consumed_once (html : String)
    (outputDir : List String) (clients : List String) (fs : WebFS)
    (addr addr2 : String) :
    (handle_webapp_request html outputDir clients true fs "/reload-check"
        addr).1.xReloadNeeded = true ∧
    (handle_webapp_request html outputDir clients true fs "/reload-check"
        addr).2.2 = false ∧
    (handle_webapp_request html outputDir
        (handle_webapp_request html outputDir clients true fs "/reload-check"
          addr).2.1
        (handle_webapp_request html outputDir clients true fs "/reload-check"
          addr).2.2 fs "/reload-check" addr2).1.xReloadNeeded = false ∧
    (handle_webapp_request html outputDir
        (handle_webapp_request html outputDir clients true fs "/reload-check"
          addr).2.1
        (handle_webapp_request html outputDir clients true fs "/reload-check"
          addr).2.2 fs "/reload-check" addr2).2.2 = false :=
  ⟨rfl, rfl, rfl, rfl⟩

/-- C8 (counterexample): the claim says the handler's consume of the reload
flag is an atomic compare-and-reset, so that in every interleaving a
concurrently stored rebuild signal is observed by some poll.  The consume
is in fact a separate load followed by a store of `false`: when the
notifier's store of `true` lands between the handler's load and its store,
the final flag is `false` although the handler's observation predates the
store — the signal is delivered to no poll. -/
theorem C8_lost_rebuild_signal :
    loadStoreRun Sched.middle true = (false, true) ∧
    ¬ signalDelivered Sched.middle true :=
  ⟨by decide, by decide⟩

/-- C8 (amended): the consume at `/reload-check` is a separate
`load(SeqCst)` followed by `store(false, SeqCst)`, not an atomic
read-modify-write; a set landing between the two steps is lost, while a
compare-and-reset consume would deliver the notifier's set in every
interleaving. -/
theorem C8_amended_load_store_consume :
    (¬ signalDelivered Sched.middle true) ∧
    (∀ nf init, casDelivered nf init) :=
  ⟨by decide, by decide⟩

/-- C10: when the PID record file exists but its contents are unreadable, do
not parse as a `u32`, or the `ps` probe fails to run, `is_server_running`
reports no prior server; `stop_existing_server` then takes its stale-record
branch, deletes the record file and succeeds (assuming the OS delete itself
works), so a corrupt record never blocks start-up. -/
theorem C10_corrupt_record_never_blocks (env : ServerEnv)
    (hpid : env.pidFileExists = true)
    (hcorrupt : env.readResult = none ∨
      (∃ s, env.readResult = some s ∧ parseU32 (trimStr s) = none) ∨
      env.psResult = none)
    (hremove : env.removeOk = true) :
    is_server_running env = false ∧
    stop_existing_server env = (.success, true) := by
  have hrun : is_server_running env = false := by
    unfold is_server_running
    rcases hcorrupt with h | ⟨s, hs, hp⟩ | h
    · simp [hpid, h]
    · simp [hpid, hs, hp]
    · cases hr : env.readResult with
      | none => simp [hpid, hr]
      | some s =>
        cases hp : parseU32 (trimStr s) with
        | none => simp [hpid, hr, hp]
        | some v => simp [hpid, hr, hp, h]
  refine ⟨hrun, ?_⟩
  unfold stop_existing_server
  simp [hrun, hpid, hremove]

/-- Witness for `C10_corrupt_record_never_blocks`: a PID file holding
`garbage`. -/
theorem C10_corrupt_record_witness :
    parseU32 (trimStr "garbage") = none ∧
    (is_server_running
        { pidFileExists := true, readResult := some "garbage",
          psResult := some (true, 2), killResult := some true,
          removeOk := true, portAvailable := true, artifactExists := true,
          pidWriteOk := true, bindOk := true } = false ∧
      stop_existing_server
        { pidFileExists := true, readResult := some "garbage",
          psResult := some (true, 2), killResult := some true,
          removeOk := true, portAvailable := true, artifactExists := true,
          pidWriteOk := true, bindOk := true } = (.success, true)) :=
  ⟨by decide,
    C10_corrupt_record_never_blocks _ rfl
      (Or.inr (Or.inl ⟨"garbage", rfl, by decide⟩)) rfl⟩

/-- C9: with a glue script configured (`js_filename` is `Some`),
`handle_request` sends a response exactly for `/`, the primary artifact's
route and the glue script's route; every other path — `/reload`,
`/assets/...`, output-directory files — falls into the glue-script branch
and receives no response at all. -/
theorem C9_glue_mode_serves_only_three_routes (j wasm : String)
    (wasmPath : List String) (watch : Bool) (clients : List String)
    (fs : WebFS) (url addr : String) :
    ((handle_request (some j) wasm wasmPath watch clients fs url
        addr).1).isSome = true ↔
      url = "/" ∨ url = "/" ++ wasm ∨ url = "/" ++ j := by
  unfold handle_request
  by_cases h1 : url = "/"
  · simp [h1]
  · by_cases h2 : url = "/" ++ wasm
    · simp only [h1, h2, if_true, if_false, eq_self_iff_true, or_true,
        true_or, iff_true]
      split <;> simp
    · by_cases h3 : url = "/" ++ j
      · simp only [h1, h2, h3, eq_self_iff_true, or_true, iff_true]
        split
        · simp
        · split <;> simp
      · simp [h1, h2, h3]

/-- C2 (counterexample): the claim says a failed termination of a live prior
instance aborts start-up with no listener created.  With a live recorded
instance whose `kill` fails and every later step succeeding, `run_server`
only logs a warning, continues, and ends up bound and serving. -/
theorem C2_stop_failure_counterexample :
    is_server_running
        { pidFileExists := true, readResult := some "123",
          psResult := some (true, 2), killResult := some false,
          removeOk := true, portAvailable := true, artifactExists := true,
          pidWriteOk := true, bindOk := true } = true ∧
    (stop_existing_server
        { pidFileExists := true, readResult := some "123",
          psResult := some (true, 2), killResult := some false,
          removeOk := true, portAvailable := true, artifactExists := true,
          pidWriteOk := true, bindOk := true }).1 =
      .failure "Failed to stop Chakra server" ∧
    run_server "app.wasm"
        { pidFileExists := true, readResult := some "123",
          psResult := some (true, 2), killResult := some false,
          removeOk := true, portAvailable := true, artifactExists := true,
          pidWriteOk := true, bindOk := true } =
      { result := .success,
        trace := [.guardStopWarned, .portOk, .artifactOk, .filenameOk,
          .browserOpened, .pidPublished, .listenerBound] } :=
  ⟨by decide, by decide, by decide⟩

/-- C2 (amended): when terminating a live prior instance fails, `run_server`
prints a warning and continues start-up — the failure is not fatal and the
guard is not retried (exactly one warning event); with the remaining steps
succeeding the listener is bound and the server serves. -/
theorem C2_amended_stop_failure_warns_and_continues
    (env : ServerEnv) (path : String) (m : String)
    (hrunning : is_server_running env = true)
    (hstop : (stop_existing_server env).1 = .failure m)
    (hport : env.portAvailable = true)
    (hart : env.artifactExists = true)
    (hname : (fileName path).isSome = true)
    (hpidw : env.pidWriteOk = true)
    (hbind : env.bindOk = true) :
    (run_server path env).result = .success ∧
    Event.listenerBound ∈ (run_server path env).trace ∧
    (run_server path env).trace.count Event.guardStopWarned = 1 := by
  obtain ⟨w, hw⟩ := Option.isSome_iff_exists.mp hname
  have hcore : run_server_core path env =
      { result := .success,
        trace := [.portOk, .artifactOk, .filenameOk, .browserOpened,
          .pidPublished, .listenerBound] } := by
    simp [run_server_core, hport, hart, hpidw, hbind, hw]
  have hguard : guardTrace env = [Event.guardStopWarned] := by
    simp [guardTrace, hrunning, hstop]
  refine ⟨?_, ?_, ?_⟩
  · show (run_server_core path env).result = .success
    rw [hcore]
  · show Event.listenerBound ∈ guardTrace env ++ (run_server_core path env).trace
    rw [hguard, hcore]
    simp
  · show (guardTrace env ++ (run_server_core path env).trace).count
        Event.guardStopWarned = 1
    rw [hguard, hcore]
    decide

/-- Witness for `C2_amended_stop_failure_warns_and_continues` at the
counterexample environment. -/
theorem C2_amended_witness :
    is_server_running
        { pidFileExists := true, readResult := some "123",
          psResult := some (true, 2), killResult := some false,
          removeOk := true, portAvailable := true, artifactExists := true,
          pidWriteOk := true, bindOk := true } = true ∧
    ((run_server "app.wasm"
        { pidFileExists := true, readResult := some "123",
          psResult := some (true, 2), killResult := some false,
          removeOk := true, portAvailable := true, artifactExists := true,
          pidWriteOk := true, bindOk := true }).result = .success ∧
      Event.listenerBound ∈ (run_server "app.wasm"
        { pidFileExists := true, readResult := some "123",
          psResult := some (true, 2), killResult := some false,
          removeOk := true, portAvailable := true, artifactExists := true,
          pidWriteOk := true, bindOk := true }).trace ∧
      (run_server "app.wasm"
        { pidFileExists := true, readResult := some "123",
          psResult := some (true, 2), killResult := some false,
          removeOk := true, portAvailable := true, artifactExists := true,
          pidWriteOk := true, bindOk := true }).trace.count
        Event.guardStopWarned = 1) :=
  ⟨by decide,
    C2_amended_stop_failure_warns_and_continues _ "app.wasm"
      "Failed to stop Chakra server" (by decide) (by decide) rfl rfl
      (by decide) rfl rfl⟩

/-- C6: every request to `/` is answered 200 with the HTML content type, and
with watch mode enabled a client address not yet recorded is inserted into
`clients_to_reload` exactly once no matter how many repeated requests the
same client makes. -/
theorem C6_entry_page_and_idempotent_clients (js : Option String)
    (wasm : String) (wasmPath : List String) (fs : WebFS) (addr : String)
    (n : Nat) (clients : List String) (h : addr ∉ clients) :
    (handle_request js wasm wasmPath true clients fs "/" addr).1 =
      some (plainResp (entryBody js wasm) (some "text/html")) ∧
    (iterEntry js wasm wasmPath fs addr (n + 1) clients).count addr = 1 := by
  refine ⟨rfl, ?_⟩
  simp only [iterEntry]
  rw [entry_step_of_not_mem js wasm wasmPath fs addr clients h]
  apply iterEntry_count_of_mem
  · exact List.mem_append.mpr (Or.inr (by simp))
  · rw [List.count_append, List.count_eq_zero.mpr h]
    simp

/-- Witness for `C6_entry_page_and_idempotent_clients`: three repeated
requests from a fresh client. -/
theorem C6_entry_page_witness :
    ("1.2.3.4:55" : String) ∉ ([] : List String) ∧
    ((handle_request none "app.wasm" ["srv", "out", "app.wasm"] true []
        { entries := [], unreadable := [] } "/" "1.2.3.4:55").1 =
      some (plainResp (entryBody none "app.wasm") (some "text/html")) ∧
    (iterEntry none "app.wasm" ["srv", "out", "app.wasm"]
        { entries := [], unreadable := [] } "1.2.3.4:55" 3 []).count
      "1.2.3.4:55" = 1) :=
  ⟨by decide,
    C6_entry_page_and_idempotent_clients none "app.wasm"
      ["srv", "out", "app.wasm"] { entries := [], unreadable := [] }
      "1.2.3.4:55" 2 [] (by decide)⟩

theorem run_server_core_spec (path : String) (env : ServerEnv) :
    (Event.pidPublished ∈ (run_server_core path env).trace ↔
      env.portAvailable = true ∧ env.artifactExists = true ∧
      (fileName path).isSome = true ∧ env.pidWriteOk = true) ∧
    (Event.listenerBound ∈ (run_server_core path env).trace ↔
      env.portAvailable = true ∧ env.artifactExists = true ∧
      (fileName path).isSome = true ∧ env.pidWriteOk = true ∧
      env.bindOk = true) ∧
    ((run_server_core path env).result = .success ↔
      Event.listenerBound ∈ (run_server_core path env).trace) ∧
    (Event.listenerBound ∈ (run_server_core path env).trace →
      (run_server_core path env).trace =
        [.portOk, .artifactOk, .filenameOk, .browserOpened, .pidPublished,
          .listenerBound]) := by
  obtain ⟨pf, rr, ps, kr, ro, pa, ae, pw, bo⟩ := env
  cases pa <;> cases ae <;> cases pw <;> cases bo <;>
    cases hf : fileName path <;> simp [run_server_core, hf]

/-- C7 (counterexample): the claim says the start-up order is guard, port
probe, artifact check, listener bind, then PID-record publish, aborting at
the first failure so that no later effect happens after an earlier failure.
With every step succeeding except the listener bind, `run_server` fails —
yet the PID record has already been published, so the publish precedes the
bind, contradicting the claimed order. -/
theorem C7_publish_before_bind_counterexample :
    run_server "app.wasm"
        { pidFileExists := false, readResult := none, psResult := none,
          killResult := none, removeOk := true, portAvailable := true,
          artifactExists := true, pidWriteOk := true, bindOk := false } =
      { result := .failure "Failed to start server",
        trace := [.portOk, .artifactOk, .filenameOk, .browserOpened,
          .pidPublished] } ∧
    Event.pidPublished ∈ (run_server "app.wasm"
        { pidFileExists := false, readResult := none, psResult := none,
          killResult := none, removeOk := true, portAvailable := true,
          artifactExists := true, pidWriteOk := true, bindOk := false }).trace ∧
    Event.listenerBound ∉ (run_server "app.wasm"
        { pidFileExists := false, readResult := none, psResult := none,
          killResult := none, removeOk := true, portAvailable := true,
          artifactExists := true, pidWriteOk := true, bindOk := false }).trace :=
  ⟨by decide, by decide, by decide⟩

/-- C7 (amended): `run_server` performs the single-instance guard (whose
failure only warns and never aborts), then the port probe, the artifact
existence check, filename extraction and the best-effort browser launch,
then publishes the SingletonRecord, and only then binds the listener.  It
aborts at the first failing step among port, artifact, filename, record
write and bind — so the record is published exactly when every step before
the bind passes, even when the bind itself then fails, and a successful
start ends with the publish immediately followed by the bind. -/
theorem C7_amended_startup_order (path : String) (env : ServerEnv) :
    (Event.pidPublished ∈ (run_server path env).trace ↔
      env.portAvailable = true ∧ env.artifactExists = true ∧
      (fileName path).isSome = true ∧ env.pidWriteOk = true) ∧
    (Event.listenerBound ∈ (run_server path env).trace ↔
      env.portAvailable = true ∧ env.artifactExists = true ∧
      (fileName path).isSome = true ∧ env.pidWriteOk = true ∧
      env.bindOk = true) ∧
    ((run_server path env).result = .success ↔
      Event.listenerBound ∈ (run_server path env).trace) ∧
    (Event.listenerBound ∈ (run_server path env).trace →
      ∃ pre, (run_server path env).trace =
        pre ++ [Event.pidPublished, Event.listenerBound]) := by
  obtain ⟨h1, h2, h3, h4⟩ := run_server_core_spec path env
  have hg := guardTrace_sub env
  have hpg : Event.pidPublished ∉ guardTrace env := by
    intro hmem
    rcases hg _ hmem with h | h <;> simp at h
  have hlg : Event.listenerBound ∉ guardTrace env := by
    intro hmem
    rcases hg _ hmem with h | h <;> simp at h
  have htr : (run_server path env).trace =
      guardTrace env ++ (run_server_core path env).trace := rfl
  have hres : (run_server path env).result =
      (run_server_core path env).result := rfl
  refine ⟨?_, ?_, ?_, ?_⟩
  · rw [htr, List.mem_append, ← h1]
    constructor
    · rintro (h | h)
      · exact absurd h hpg
      · exact h
    · exact Or.inr
  · rw [htr, List.mem_append, ← h2]
    constructor
    · rintro (h | h)
      · exact absurd h hlg
      · exact h
    · exact Or.inr
  · rw [htr, hres, List.mem_append, h3]
    constructor
    · exact Or.inr
    · rintro (h | h)
      · exact absurd h hlg
      · exact h
  · intro h
    have hc : Event.listenerBound ∈ (run_server_core path env).trace := by
      rcases List.mem_append.mp (htr ▸ h) with h' | h'
      · exact absurd h' hlg
      · exact h'
    refine ⟨guardTrace env ++
      [.portOk, .artifactOk, .filenameOk, .browserOpened], ?_⟩
    rw [htr, h4 hc, List.append_assoc]
    rfl

/-- C5 (counterexample): the claim covers every request path ending in
`_bg.wasm` with no exact match, but with a glue script configured such a
request falls into the glue branch and receives no response at all, even
though the output directory contains exactly one file ending in the
suffix. -/
theorem C5_glue_swallows_bg_fallback :
    ((readDir
        { entries := [(["srv", "out", "mod_bg.wasm"], true)],
          unreadable := [] } ["srv", "out"]).filter
      (fun e => strEndsWith e.1 "_bg.wasm" && e.2)) =
      [("mod_bg.wasm", true)] ∧
    (handle_request (some "app.js") "app.wasm" ["srv", "out", "app.wasm"]
        false []
        { entries := [(["srv", "out", "mod_bg.wasm"], true)],
          unreadable := [] } "/x_bg.wasm" "c").1 = none :=
  ⟨by decide, by decide⟩

/-- C5 (amended): for a request handled with no glue script configured,
whose path ends in `_bg.wasm`, matches none of the fixed routes, and has no
exact file match under the output directory (the artifact's parent, assumed
readable, with canonical entry paths): if the directory holds exactly one
regular file whose name ends in `_bg.wasm`, that file is served with
`application/wasm`; if no directory entry of any kind ends in the suffix or
is named like the request's final segment (the extension fallback also
matches directories), the response is 404. -/
theorem C5_amended_bg_fallback (wasm : String) (wasmPath : List String)
    (watch : Bool) (clients : List String) (fs : WebFS) (url addr : String)
    (f : String)
    (hwf : ∀ e ∈ fs.entries, normalize e.1 = e.1)
    (hroot : url ≠ "/")
    (hwroute : url ≠ "/" ++ wasm)
    (hreload : url ≠ "/reload")
    (hassets : strStartsWith url "/assets/" = false)
    (hsuffix : strEndsWith url "_bg.wasm" = true)
    (hnofile : isFile fs (wasmPath.dropLast ++ urlSegs url) = false)
    (hreadable : wasmPath.dropLast ∉ fs.unreadable) :
    (((readDir fs wasmPath.dropLast).filter
        (fun e => strEndsWith e.1 "_bg.wasm" && e.2) = [(f, true)]) →
      (handle_request none wasm wasmPath watch clients fs url addr).1 =
        some (plainResp (.fileData (wasmPath.dropLast ++ [f]))
          (some "application/wasm"))) ∧
    ((∀ e ∈ readDir fs wasmPath.dropLast,
        strEndsWith e.1 "_bg.wasm" = false ∧ e.1 ≠ urlLastSeg url) →
      (handle_request none wasm wasmPath watch clients fs url addr).1 =
        some { status := 404, body := .text "404 Not Found",
               contentType := some "text/plain", cacheControl := false,
               xReloadNeeded := false }) := by
  have hassetsP : ¬ (strStartsWith url "/assets/" = true) := by
    simp [hassets]
  have hnofileP : ¬ (isFile fs (wasmPath.dropLast ++ urlSegs url) = true) := by
    simp [hnofile]
  constructor
  · intro hone
    have hfind : (readDir fs wasmPath.dropLast).find?
        (fun e => strEndsWith e.1 "_bg.wasm" && e.2) = some (f, true) := by
      rw [find_eq_filter_head, hone]
      rfl
    have hmem : (f, true) ∈ readDir fs wasmPath.dropLast := by
      refine List.mem_of_mem_filter (p := fun e =>
        strEndsWith e.1 "_bg.wasm" && e.2) ?_
      rw [hone]
      simp
    have hent : (wasmPath.dropLast ++ [f], true) ∈ fs.entries :=
      mem_entries_of_mem_readDir hmem
    have hnorm : normalize (wasmPath.dropLast ++ [f]) =
        wasmPath.dropLast ++ [f] := hwf _ hent
    have hfile : isFile fs (wasmPath.dropLast ++ [f]) = true :=
      isFile_of_mem_entries hwf hent
    have hbg : bgScan fs wasmPath.dropLast
        (some (readDir fs wasmPath.dropLast)) =
        some (plainResp (.fileData (wasmPath.dropLast ++ [f]))
          (some "application/wasm")) := by
      simp only [bgScan, hfind]
      unfold serve_file
      rw [if_pos hfile, hnorm]
    simp only [handle_request]
    rw [if_neg hroot, if_neg hwroute, if_neg hreload, if_neg hassetsP,
      if_neg hnofileP, if_neg hreadable, if_pos hsuffix, hbg]
  · intro hnone
    have hfind : (readDir fs wasmPath.dropLast).find?
        (fun e => strEndsWith e.1 "_bg.wasm" && e.2) = none := by
      rw [List.find?_eq_none]
      intro x hx
      simp [(hnone x hx).1]
    have hbg : bgScan fs wasmPath.dropLast
        (some (readDir fs wasmPath.dropLast)) = none := by
      simp only [bgScan, hfind]
    have hext : extSearch fs wasmPath.dropLast url
        (some (readDir fs wasmPath.dropLast))
        ["js", "css", "json", "wasm"] = none :=
      extSearch_eq_none (fun e he => (hnone e he).2) _
    simp only [handle_request]
    rw [if_neg hroot, if_neg hwroute, if_neg hreload, if_neg hassetsP,
      if_neg hnofileP, if_neg hreadable, if_pos hsuffix, hbg, hext]

/-- Witness for `C5_amended_bg_fallback`: the directory holds exactly one
file ending in `_bg.wasm` and the request `/x_bg.wasm` is served from it. -/
theorem C5_amended_witness :
    ((readDir
        { entries := [(["srv", "out", "mod_bg.wasm"], true)],
          unreadable := [] } ["srv", "out"]).filter
      (fun e => strEndsWith e.1 "_bg.wasm" && e.2) =
      [("mod_bg.wasm", true)]) ∧
    (handle_request none "app.wasm" ["srv", "out", "app.wasm"] false []
        { entries := [(["srv", "out", "mod_bg.wasm"], true)],
          unreadable := [] } "/x_bg.wasm" "c").1 =
      some (plainResp (.fileData ["srv", "out", "mod_bg.wasm"])
        (some "application/wasm")) :=
  ⟨by decide,
    (C5_amended_bg_fallback "app.wasm" ["srv", "out", "app.wasm"] false []
      { entries := [(["srv", "out", "mod_bg.wasm"], true)],
        unreadable := [] } "/x_bg.wasm" "c" "mod_bg.wasm" (by decide)
      (by decide) (by decide) (by decide) (by decide) (by decide)
      (by decide) (by decide)).1 (by decide)⟩

end Wasmrun
